import Mathlib

/-!
Shallow embedding of the backtesting pipeline
(`scripts/backtest_all_strategies_30days.py` and `scripts/backtest_1m_scorer.py`).

Conventions of the embedding:
* Python floats become `ℚ` (exact arithmetic), timestamps become `ℤ`
  (seconds since epoch), wallet/trader identifiers become `ℕ`.
* SQL queries against the read-only market-data repository become list
  filters over the full per-asset trade/window lists (SQL `BETWEEN` is
  inclusive on both ends, `ORDER BY block_time ASC` is the list order:
  every concrete list below is written in ascending time order).
* Rows fetched by key (`wallet_stats`, creator stats) become `Option`-valued
  lookup functions supplied as parameters; `None`/missing rows are `none`.
* The diagnostic label component of the scorer's `(score, detail)` pairs is
  presentational and is not modelled; only the numeric contribution is.
-/

namespace Pipeline

/-- A `windows` table row (60-second OHLCV buckets): `start_time`, `close`,
`high`, `low`, `vol_sol` as selected by `get_price_data`. -/
structure Window where
  start : ℤ
  close : ℚ
  high : ℚ
  low : ℚ
  vol : ℚ
deriving DecidableEq, Repr

/-- The `side` column of the `trades` table. -/
inductive Side
  | buy
  | sell
deriving DecidableEq, Repr

/-- A `trades` table row: `trader`, `amount_sol`, `side`, `block_time`. -/
structure Trade where
  trader : ℕ
  amount : ℚ
  side : Side
  time : ℤ
deriving DecidableEq, Repr

/-- A `wallet_stats` row (fields already coalesced with `or 0` as the Python
code does): `net_pnl_sol`, `create_count`, `profit_score`, `win_rate`,
`total_trades`. -/
structure WalletStats where
  netPnl : ℚ
  createCount : ℤ
  profitScore : ℚ
  winRate : ℚ
  totalTrades : ℤ
deriving DecidableEq, Repr

/-- Wallet tiers returned by `get_wallet_tier` ("S"/"A"/"B"/"C"/"D"/"Unknown"). -/
inductive Tier
  | S
  | A
  | B
  | C
  | D
  | Unknown
deriving DecidableEq, Repr

/-- `get_trades(mint, launch_time, start_offset, end_offset)`:
`block_time BETWEEN launch+lo AND launch+hi ORDER BY block_time ASC`. -/
def tradesInRange (trades : List Trade) (launch lo hi : ℤ) : List Trade :=
  trades.filter (fun t => launch + lo ≤ t.time ∧ t.time ≤ launch + hi)

/-- `get_price_data(mint, launch_time, max_seconds)`:
`start_time BETWEEN launch AND launch+maxSec ORDER BY start_time ASC`. -/
def windowsInRange (ws : List Window) (launch maxSec : ℤ) : List Window :=
  ws.filter (fun w => launch ≤ w.start ∧ w.start ≤ launch + maxSec)

/-- `SELECT close FROM windows WHERE start_time <= t ORDER BY start_time DESC
LIMIT 1`, over an ascending window list: the close of the last window whose
start is at or before `t`. -/
def closeAtOrBefore (ws : List Window) (t : ℤ) : Option ℚ :=
  ((ws.filter (fun w => w.start ≤ t)).map (fun w => w.close)).getLast?

/-- `get_wallet_tier` of `backtest_all_strategies_30days.py` (lines 106-136). -/
def getWalletTier (lookup : ℕ → Option WalletStats) (w : ℕ) : Tier :=
  match lookup w with
  | none => Tier.Unknown
  | some st =>
    if st.profitScore ≥ 85 ∧ st.winRate ≥ 0.70 ∧ st.totalTrades ≥ 50 then Tier.S
    else if st.profitScore ≥ 75 ∧ st.winRate ≥ 0.60 ∧ st.totalTrades ≥ 20 then Tier.A
    else if st.profitScore ≥ 65 ∧ st.winRate ≥ 0.50 ∧ st.totalTrades ≥ 10 then Tier.B
    else if st.profitScore ≥ 50 ∧ st.totalTrades ≥ 5 then Tier.C
    else Tier.D

/-- `tier in ["S", "A", "B"]`: the top 3 of the 5 real tiers. -/
def isTopTier (t : Tier) : Bool :=
  t == Tier.S || t == Tier.A || t == Tier.B

/-- The set of distinct buyers of a trade list:
`set([t["trader"] for t in trades if t["side"] == "buy"])`. -/
def buyersOf (ts : List Trade) : Finset ℕ :=
  ((ts.filter (fun t => t.side == Side.buy)).map (fun t => t.trader)).toFinset

/-- Total buy volume of a trade list:
`sum([t["amount_sol"] for t in trades if t["side"] == "buy"])`. -/
def buyVolume (ts : List Trade) : ℚ :=
  ((ts.filter (fun t => t.side == Side.buy)).map (fun t => t.amount)).sum

/-- Signal 1 (creator reputation), shared rule of
`calculate_7_signal_score` (lines 551-560) and
`calculate_signal_1_creator_reputation` (scorer lines 80-116); the input is
the creator's `(net_pnl_sol, create_count)` row, `none` when absent. -/
def signal1 (creatorStats : Option (ℚ × ℤ)) : ℚ :=
  match creatorStats with
  | none => 0
  | some (pnl, cnt) =>
    if pnl ≥ 500 ∧ cnt ≥ 5 then 2
    else if pnl ≥ 200 ∧ cnt ≥ 3 then 1.5
    else if pnl ≥ 50 then 1
    else 0

/-- Signal 2 (buyer speed) of `calculate_7_signal_score` (lines 562-571):
distinct buyers among the trades of the first 60 seconds. -/
def signal2 (trades60 : List Trade) : ℚ :=
  if (buyersOf trades60).card ≥ 10 then 2
  else if (buyersOf trades60).card ≥ 7 then 1.5
  else if (buyersOf trades60).card ≥ 5 then 1
  else 0

/-- The count `proven_winners_buying` of `calculate_7_signal_score`
(lines 577-583): it is incremented once per BUY TRADE whose trader is tier
S/A/B, so a wallet buying repeatedly is counted repeatedly. -/
def provenWinnersBuying (lookup : ℕ → Option WalletStats) (ts : List Trade) : ℕ :=
  (ts.filter (fun t => t.side == Side.buy && isTopTier (getWalletTier lookup t.trader))).length

/-- Signal 4 (wallet overlap) of `calculate_7_signal_score` (lines 576-590). -/
def signal4 (lookup : ℕ → Option WalletStats) (trades60 : List Trade) : ℚ :=
  if provenWinnersBuying lookup trades60 ≥ 3 then 2
  else if provenWinnersBuying lookup trades60 ≥ 2 then 1.5
  else if provenWinnersBuying lookup trades60 ≥ 1 then 1
  else 0

/-- Distinct buyers of a buy-trade list in first-appearance order (the keys
of the Python `defaultdict` built over `buy_trades`). -/
def distinctBuyers (buys : List Trade) : List ℕ :=
  (buys.map (fun t => t.trader)).dedup

/-- Aggregated buy volume of one trader (one `trader_volumes` entry). -/
def volumeOf (buys : List Trade) (w : ℕ) : ℚ :=
  ((buys.filter (fun t => t.trader == w)).map (fun t => t.amount)).sum

/-- The `trader_volumes.values()` list: one aggregated volume per distinct
trader of `buys`. -/
def traderVols (buys : List Trade) : List ℚ :=
  (distinctBuyers buys).map (volumeOf buys)

/-- `sorted(values, reverse=True)[:3]` summed: total volume of the top-3
buyers. -/
def top3Sum (vols : List ℚ) : ℚ :=
  ((List.insertionSort (fun a b => b ≤ a) vols).take 3).sum

/-- Signal 5 (buy concentration) of `calculate_7_signal_score`
(lines 592-611), over the trades of the first 120 seconds. -/
def signal5 (trades120 : List Trade) : ℚ :=
  if (trades120.filter (fun t => t.side == Side.buy)).isEmpty then 0
  else
    if 0 < ((trades120.filter (fun t => t.side == Side.buy)).map (fun t => t.amount)).sum then
      if top3Sum (traderVols (trades120.filter (fun t => t.side == Side.buy))) /
          ((trades120.filter (fun t => t.side == Side.buy)).map (fun t => t.amount)).sum * 100 < 70
      then 1
      else if top3Sum (traderVols (trades120.filter (fun t => t.side == Side.buy))) /
          ((trades120.filter (fun t => t.side == Side.buy)).map (fun t => t.amount)).sum * 100 < 80
      then 0.5
      else 0
    else 0

/-- Signal 6 (volume acceleration) of `calculate_7_signal_score`
(lines 613-627): buy volume of the 90-120s trades against the 60-90s trades. -/
def signal6 (t90to120 t60to90 : List Trade) : ℚ :=
  if buyVolume t60to90 > 0.5 ∧ buyVolume t90to120 > 0.5 then
    if buyVolume t90to120 / buyVolume t60to90 ≥ 2 then 1.5
    else if buyVolume t90to120 / buyVolume t60to90 ≥ 1.5 then 1
    else 0
  else 0

/-- Signal 7 (MC velocity) of `calculate_7_signal_score` (lines 629-648):
uses the closes of the FIRST and THIRD price windows after launch and a
hard-coded 3-minute span. -/
def signal7All (prices : List Window) : ℚ :=
  if prices.length ≥ 3 then
    match prices with
    | p0 :: _ :: p2 :: _ =>
      if p0.close > 0 then
        if (p2.close - p0.close) * 1000000000 / 3 ≥ 1000 then 3
        else if (p2.close - p0.close) * 1000000000 / 3 ≥ 500 then 2
        else if (p2.close - p0.close) * 1000000000 / 3 ≥ 200 then 1
        else 0
      else 0
    | _ => 0
  else 0

/-- The mutable `score` dict of `calculate_7_signal_score`: one field per
signal plus the stored total. -/
structure Score7 where
  s1 : ℚ
  s2 : ℚ
  s3 : ℚ
  s4 : ℚ
  s5 : ℚ
  s6 : ℚ
  s7 : ℚ
  total : ℚ
deriving DecidableEq, Repr

/-- `calculate_7_signal_score` (lines 536-651).  `creatorStats` is the
creator's `(net_pnl_sol, create_count)` row; `lookup` the `wallet_stats`
table; `trades`/`windows` the asset's full trade/window history (the
function performs its own `BETWEEN` windowing as the SQL queries do).
Signal 3 is hard-coded to 0 ("no data available"); the stored total is the
sum of the seven contributions. -/
def calculate7SignalScore (lookup : ℕ → Option WalletStats)
    (creatorStats : Option (ℚ × ℤ)) (trades : List Trade)
    (windows : List Window) (launch : ℤ) : Score7 :=
  { s1 := signal1 creatorStats
    s2 := signal2 (tradesInRange trades launch 0 60)
    s3 := 0
    s4 := signal4 lookup (tradesInRange trades launch 0 60)
    s5 := signal5 (tradesInRange trades launch 0 120)
    s6 := signal6 (tradesInRange trades launch 90 120) (tradesInRange trades launch 60 90)
    s7 := signal7All (windowsInRange windows launch 300)
    total := signal1 creatorStats
      + signal2 (tradesInRange trades launch 0 60)
      + 0
      + signal4 lookup (tradesInRange trades launch 0 60)
      + signal5 (tradesInRange trades launch 0 120)
      + signal6 (tradesInRange trades launch 90 120) (tradesInRange trades launch 60 90)
      + signal7All (windowsInRange windows launch 300) }

/-- `MAX(block_time) - MIN(block_time)` over a trade list (0 when empty,
matching the SQL NULL coalesced by `or 0`). -/
def timeSpan (ts : List Trade) : ℤ :=
  match (ts.map (fun t => t.time)).max?, (ts.map (fun t => t.time)).min? with
  | some mx, some mn => mx - mn
  | _, _ => 0

/-- `calculate_signal_2_buyer_speed` (scorer lines 118-151): distinct buy
traders in `[launch, launch+evalT]` together with the buy-trade time span.
Note the rule differs from `calculate_7_signal_score`: 2.0 needs ≥10 buyers
AND span ≤ 30s, 1.5 needs ≥10 buyers and span ≤ 60s, 1.0 needs ≥7 buyers,
and 5-6 buyers score 0. -/
def scorerSignal2 (trades : List Trade) (launch evalT : ℤ) : ℚ :=
  if ((tradesInRange trades launch 0 evalT).filter (fun t => t.side == Side.buy)).isEmpty then 0
  else
    if (buyersOf (tradesInRange trades launch 0 evalT)).card ≥ 10 ∧
        timeSpan ((tradesInRange trades launch 0 evalT).filter (fun t => t.side == Side.buy)) ≤ 30
    then 2
    else if (buyersOf (tradesInRange trades launch 0 evalT)).card ≥ 10 ∧
        timeSpan ((tradesInRange trades launch 0 evalT).filter (fun t => t.side == Side.buy)) ≤ 60
    then 1.5
    else if (buyersOf (tradesInRange trades launch 0 evalT)).card ≥ 7 then 1
    else 0

/-- `calculate_signal_3_liquidity_ratio` (scorer lines 153-201); `liq` is the
token's `initial_liquidity_sol` (a zero value is falsy in Python, hence
treated like a missing row). -/
def scorerSignal3 (liq : Option ℚ) (ws : List Window) (launch evalT : ℤ) : ℚ :=
  match liq with
  | none => 0
  | some l =>
    if l = 0 then 0
    else
      match closeAtOrBefore ws (launch + evalT) with
      | none => 0
      | some price =>
        if price = 0 then 0
        else
          if price * 1000000000 = 0 then 0
          else if l / (price * 1000000000) < 0.03 then 1.5
          else if l / (price * 1000000000) < 0.05 then 1
          else 0

/-- `calculate_signal_4_wallet_overlap` (scorer lines 203-250): DISTINCT
buyers in `[launch, launch+evalT]` intersected with the externally queried
top-100 profitable-wallet set. -/
def scorerSignal4 (profitable : Finset ℕ) (trades : List Trade) (launch evalT : ℤ) : ℚ :=
  if profitable = ∅ then 0
  else
    if ((buyersOf (tradesInRange trades launch 0 evalT)) ∩ profitable).card ≥ 3 then 2
    else if ((buyersOf (tradesInRange trades launch 0 evalT)) ∩ profitable).card = 2 then 1.5
    else if ((buyersOf (tradesInRange trades launch 0 evalT)) ∩ profitable).card = 1 then 1
    else 0

/-- `calculate_signal_5_buy_concentration` (scorer lines 252-289): the SQL
groups buy trades per trader (`traderVols`), orders the groups by volume
descending and takes the top 3; fewer than 3 group rows score 0. -/
def scorerSignal5 (trades : List Trade) (launch evalT : ℤ) : ℚ :=
  if (traderVols ((tradesInRange trades launch 0 evalT).filter (fun t => t.side == Side.buy))).length ≤ 2
  then 0
  else
    if (traderVols ((tradesInRange trades launch 0 evalT).filter (fun t => t.side == Side.buy))).sum = 0
    then 0
    else
      if top3Sum (traderVols ((tradesInRange trades launch 0 evalT).filter (fun t => t.side == Side.buy))) /
          (traderVols ((tradesInRange trades launch 0 evalT).filter (fun t => t.side == Side.buy))).sum * 100 < 70
      then 1
      else if top3Sum (traderVols ((tradesInRange trades launch 0 evalT).filter (fun t => t.side == Side.buy))) /
          (traderVols ((tradesInRange trades launch 0 evalT).filter (fun t => t.side == Side.buy))).sum * 100 < 80
      then 0.5
      else 0

/-- `calculate_signal_6_volume_acceleration` (scorer lines 291-340): buy
volume of the last 30s of the evaluation window against the 30s before it;
baseline below the 0.1 floor scores 0. -/
def scorerSignal6 (trades : List Trade) (launch evalT : ℤ) : ℚ :=
  if evalT < 60 then 0
  else
    if buyVolume (tradesInRange trades launch (evalT - 60) (evalT - 30)) < 0.1 then 0
    else
      if buyVolume (tradesInRange trades launch (evalT - 30) evalT) /
          buyVolume (tradesInRange trades launch (evalT - 60) (evalT - 30)) ≥ 2 then 1.5
      else if buyVolume (tradesInRange trades launch (evalT - 30) evalT) /
          buyVolume (tradesInRange trades launch (evalT - 60) (evalT - 30)) ≥ 1.5 then 1
      else 0

/-- `calculate_signal_7_mc_velocity` (scorer lines 342-404): market cap (close
× 10⁹) at the evaluation instant against 30 seconds earlier, normalized to a
per-minute rate; a zero close is falsy in Python, hence "no data". -/
def scorerSignal7 (ws : List Window) (launch evalT : ℤ) : ℚ :=
  if evalT < 30 then 0
  else
    match closeAtOrBefore ws (launch + evalT) with
    | none => 0
    | some cur =>
      if cur = 0 then 0
      else
        match closeAtOrBefore ws (launch + evalT - 30) with
        | none => 0
        | some base =>
          if base = 0 then 0
          else
            if (cur * 1000000000 - base * 1000000000) / 30 * 60 ≥ 1000 then 3
            else if (cur * 1000000000 - base * 1000000000) / 30 * 60 ≥ 500 then 2
            else if (cur * 1000000000 - base * 1000000000) / 30 * 60 ≥ 200 then 1
            else 0

/-- The record returned by `score_token_at_time` (scorer lines 406-442):
per-signal contributions plus the `total_score` stored as their sum. -/
structure ScorerScore where
  s1 : ℚ
  s2 : ℚ
  s3 : ℚ
  s4 : ℚ
  s5 : ℚ
  s6 : ℚ
  s7 : ℚ
  total : ℚ
deriving DecidableEq, Repr

/-- `score_token_at_time` (scorer lines 406-442). -/
def scoreTokenAtTime (creatorStats : Option (ℚ × ℤ)) (profitable : Finset ℕ)
    (liq : Option ℚ) (trades : List Trade) (ws : List Window)
    (launch evalT : ℤ) : ScorerScore :=
  { s1 := signal1 creatorStats
    s2 := scorerSignal2 trades launch evalT
    s3 := scorerSignal3 liq ws launch evalT
    s4 := scorerSignal4 profitable trades launch evalT
    s5 := scorerSignal5 trades launch evalT
    s6 := scorerSignal6 trades launch evalT
    s7 := scorerSignal7 ws launch evalT
    total := signal1 creatorStats + scorerSignal2 trades launch evalT
      + scorerSignal3 liq ws launch evalT + scorerSignal4 profitable trades launch evalT
      + scorerSignal5 trades launch evalT + scorerSignal6 trades launch evalT
      + scorerSignal7 ws launch evalT }

/-- `SOL_PRICE_USD = 186.0`. -/
def solPriceUsd : ℚ := 186

/-- Exit reasons: one constructor per kind of exit-string the strategies
record ("time" is the default when no condition ever fires; "target" covers
"profit_3pct"/"target_30pct"/"target_50pct"/"target_...pct"; "stop" the
"stop_loss..." strings; "timeout" the "time_20s"/"time_30s"/"time_420s"
strings; "hit1m" is "hit_1m_mc"). -/
inductive ExitReason
  | time
  | target
  | stop
  | timeout
  | hit1m
deriving DecidableEq, Repr

/-- Result of an exit scan: the exit price, the reason, and (as
instrumentation determined by the loop, not stored by the Python dict) the
launch-relative start offset of the window at which the loop broke (`none`
when the loop ran out of windows and the defaults survived). -/
structure ExitOut where
  price : ℚ
  reason : ExitReason
  fired : Option ℤ
deriving DecidableEq, Repr

/-- The shared entry scan: the close and launch-relative offset of the first
window whose offset lies in `[lo, hi]` (`none` when there is none). -/
def findEntry (ws : List Window) (launch lo hi : ℤ) : Option (ℚ × ℤ) :=
  match ws.find? (fun w => lo ≤ w.start - launch ∧ w.start - launch ≤ hi) with
  | some w => some (w.close, w.start - launch)
  | none => none

/-- Exit loop of `test_dollar_scalping` (lines 169-192): skip windows at or
before the entry offset; then profit target (+3%, priced at entry×1.03), then
stop loss (low < entry×0.98), then the 20-second timeout, first hit wins. -/
def scalpExitLoop (launch entryTime : ℤ) (entry : ℚ) : List Window → ExitOut
  | [] => ⟨entry, ExitReason.time, none⟩
  | w :: rest =>
    if w.start - launch ≤ entryTime then scalpExitLoop launch entryTime entry rest
    else if (w.high - entry) / entry * 100 ≥ 3 then
      ⟨entry * 1.03, ExitReason.target, some (w.start - launch)⟩
    else if w.low < entry * 0.98 then
      ⟨entry * 0.98, ExitReason.stop, some (w.start - launch)⟩
    else if w.start - launch ≥ entryTime + 20 then
      ⟨w.close, ExitReason.timeout, some (w.start - launch)⟩
    else scalpExitLoop launch entryTime entry rest

/-- Exit loop of `test_rank_based` (lines 252-272): note it skips only
windows with offset ≤ 60 (the LOWER BOUND of the 60-120s entry interval),
not windows at or before the actual entry offset. -/
def rankExitLoop (launch : ℤ) (entry : ℚ) : List Window → ExitOut
  | [] => ⟨entry, ExitReason.time, none⟩
  | w :: rest =>
    if w.start - launch ≤ 60 then rankExitLoop launch entry rest
    else if (w.high - entry) / entry * 100 ≥ 30 then
      ⟨entry * 1.30, ExitReason.target, some (w.start - launch)⟩
    else if w.low < entry * 0.80 then
      ⟨entry * 0.80, ExitReason.stop, some (w.start - launch)⟩
    else if w.start - launch ≥ 60 + 30 then
      ⟨w.close, ExitReason.timeout, some (w.start - launch)⟩
    else rankExitLoop launch entry rest

/-- Exit loop of `test_momentum` (lines 329-349): skips only windows with
offset ≤ 120 (the lower bound of the 120-130s entry interval). -/
def momentumExitLoop (launch : ℤ) (entry : ℚ) : List Window → ExitOut
  | [] => ⟨entry, ExitReason.time, none⟩
  | w :: rest =>
    if w.start - launch ≤ 120 then momentumExitLoop launch entry rest
    else if (w.high - entry) / entry * 100 ≥ 50 then
      ⟨entry * 1.50, ExitReason.target, some (w.start - launch)⟩
    else if w.low < entry * 0.85 then
      ⟨entry * 0.85, ExitReason.stop, some (w.start - launch)⟩
    else if w.start - launch ≥ 120 + 120 then
      ⟨w.close, ExitReason.timeout, some (w.start - launch)⟩
    else momentumExitLoop launch entry rest

/-- `if mc_sol > peak_mc_sol: peak_mc_sol = mc_sol` (with
`mc_sol = high × 10⁹ / 10⁹ = high`). -/
def peakUpd (peak high : ℚ) : ℚ :=
  if high > peak then high else peak

/-- Result of the 1M-MC exit scan, which additionally tracks the running
peak market cap (in SOL, numerically equal to the running max of highs). -/
structure McExitOut where
  price : ℚ
  reason : ExitReason
  fired : Option ℤ
  peak : ℚ
deriving DecidableEq, Repr

/-- Exit loop of `test_1m_mc_hunting` (lines 697-736): skip windows with
offset ≤ 120; update the peak MC with the current high; then, in order:
absolute 1M market-cap threshold (exit at the current close), profit target
(exit at entry×target), stop loss (exit at entry×stop), 420-second timeout
(exit at the current close). -/
def mcExitLoop (launch : ℤ) (entry target stop : ℚ) : List Window → ℚ → McExitOut
  | [], peak => ⟨entry, ExitReason.time, none, peak⟩
  | w :: rest, peak =>
    if w.start - launch ≤ 120 then mcExitLoop launch entry target stop rest peak
    else
      if peakUpd peak w.high ≥ 1000000 then
        ⟨w.close, ExitReason.hit1m, some (w.start - launch), peakUpd peak w.high⟩
      else if w.high ≥ entry * target then
        ⟨entry * target, ExitReason.target, some (w.start - launch), peakUpd peak w.high⟩
      else if w.low < entry * stop then
        ⟨entry * stop, ExitReason.stop, some (w.start - launch), peakUpd peak w.high⟩
      else if w.start - launch ≥ 420 then
        ⟨w.close, ExitReason.timeout, some (w.start - launch), peakUpd peak w.high⟩
      else mcExitLoop launch entry target stop rest (peakUpd peak w.high)

/-- A simulated position (the dict the `test_*` strategies return), with the
entry offset and the fired exit-window offset added as instrumentation
(both are determined by the entry/exit scans even though the Python dict
stores neither). -/
structure Position where
  positionSize : ℚ
  entryPrice : ℚ
  exitPrice : ℚ
  exitReason : ExitReason
  pnlSol : ℚ
  pnlUsd : ℚ
  entryTime : ℤ
  exitTime : Option ℤ
deriving DecidableEq, Repr

/-- `test_dollar_scalping` (lines 142-215): entry at the first window with
offset in [30, 60]; $1 position; the trade is DISCARDED when the exit scan
fell through with the default "time" reason and the USD P&L is below one
cent in absolute value. -/
def testDollarScalping (launch : ℤ) (prices : List Window) : Option Position :=
  if prices.length < 2 then none
  else
    match findEntry prices launch 30 60 with
    | none => none
    | some (ep, et) =>
      if ep ≤ 0 then none
      else
        if |1 / solPriceUsd * (((scalpExitLoop launch et ep prices).price - ep) / ep) * solPriceUsd| < 0.01 ∧
            (scalpExitLoop launch et ep prices).reason = ExitReason.time
        then none
        else
          some ⟨1 / solPriceUsd, ep, (scalpExitLoop launch et ep prices).price,
            (scalpExitLoop launch et ep prices).reason,
            1 / solPriceUsd * (((scalpExitLoop launch et ep prices).price - ep) / ep),
            1 / solPriceUsd * (((scalpExitLoop launch et ep prices).price - ep) / ep) * solPriceUsd,
            et, (scalpExitLoop launch et ep prices).fired⟩

/-- `test_rank_based` (lines 221-285): qualifies on 5-minute volume ≥ 20,
entry at the first window with offset in [60, 120], $5 position. -/
def testRankBased (launch : ℤ) (prices : List Window) (volume5min : ℚ) : Option Position :=
  if prices.length < 3 then none
  else if volume5min < 20 then none
  else
    match findEntry prices launch 60 120 with
    | none => none
    | some (ep, et) =>
      if ep ≤ 0 then none
      else
        some ⟨5 / solPriceUsd, ep, (rankExitLoop launch ep prices).price,
          (rankExitLoop launch ep prices).reason,
          5 / solPriceUsd * (((rankExitLoop launch ep prices).price - ep) / ep),
          5 / solPriceUsd * (((rankExitLoop launch ep prices).price - ep) / ep) * solPriceUsd,
          et, (rankExitLoop launch ep prices).fired⟩

/-- `test_momentum` (lines 291-364): qualifies on ≥5 trades, ≥3 distinct
buyers and ≥4 SOL buy volume in the 60-120s window; entry at the first
window with offset in [120, 130]; $3 position. -/
def testMomentum (launch : ℤ) (prices : List Window) (trades : List Trade) : Option Position :=
  if prices.length < 4 then none
  else if (tradesInRange trades launch 60 120).length < 5 then none
  else if (buyersOf (tradesInRange trades launch 60 120)).card < 3 ∨
      buyVolume (tradesInRange trades launch 60 120) < 4 then none
  else
    match findEntry prices launch 120 130 with
    | none => none
    | some (ep, et) =>
      if ep ≤ 0 then none
      else
        some ⟨3 / solPriceUsd, ep, (momentumExitLoop launch ep prices).price,
          (momentumExitLoop launch ep prices).reason,
          3 / solPriceUsd * (((momentumExitLoop launch ep prices).price - ep) / ep),
          3 / solPriceUsd * (((momentumExitLoop launch ep prices).price - ep) / ep) * solPriceUsd,
          et, (momentumExitLoop launch ep prices).fired⟩

/-- The P&L payload of one recorded trade dict, as consumed by the
aggregation loop of `run_comprehensive_backtest` (lines 841-858). -/
structure TradeRec where
  pnlSol : ℚ
  pnlUsd : ℚ
deriving DecidableEq, Repr

/-- One strategy's entry of the `results` dict: the `trades` list,
`total_pnl` (USD), `wins` and `losses`. -/
structure StratResults where
  trades : List TradeRec
  totalPnl : ℚ
  wins : ℕ
  losses : ℕ
deriving DecidableEq, Repr

/-- One iteration of the per-token loop for one strategy (lines 841-858):
the `test_func()` call either raises (`Except.error`, swallowed by the bare
`except ... pass`), returns `None`, or returns a trade that is appended and
counted (win iff `pnl_sol > 0`, loss otherwise). -/
def recordOutcome (r : StratResults) : Except Unit (Option TradeRec) → StratResults
  | Except.error _ => r
  | Except.ok none => r
  | Except.ok (some t) =>
    { trades := r.trades ++ [t]
      totalPnl := r.totalPnl + t.pnlUsd
      wins := if t.pnlSol > 0 then r.wins + 1 else r.wins
      losses := if t.pnlSol > 0 then r.losses else r.losses + 1 }

/-- The batch loop for one strategy: fold the per-token outcomes over the
initial `{"trades": [], "total_pnl": 0.0, "wins": 0, "losses": 0}` entry.
`print_comprehensive_results` consumes only this record (plus the day
count), so anything absent from it cannot appear in the final report. -/
def runBatch (os : List (Except Unit (Option TradeRec))) : StratResults :=
  os.foldl recordOutcome ⟨[], 0, 0, 0⟩

/-- The four order-insensitive statistics of a strategy entry: trade count,
win count, loss count, total P&L. -/
def statsQuad (r : StratResults) : ℕ × ℕ × ℕ × ℚ :=
  (r.trades.length, r.wins, r.losses, r.totalPnl)

/-- Componentwise sum of two statistics quadruples. -/
def addQuad (a b : ℕ × ℕ × ℕ × ℚ) : ℕ × ℕ × ℕ × ℚ :=
  (a.1 + b.1, a.2.1 + b.2.1, a.2.2.1 + b.2.2.1, a.2.2.2 + b.2.2.2)

/-- The trade recorded by an outcome, if any. -/
def okTrade : Except Unit (Option TradeRec) → Option TradeRec
  | Except.ok (some t) => some t
  | _ => none

/-- Modelled from the claim wording of C4: signal 7 as "the market-cap
change over the 30-second interval ending at the evaluation instant,
normalized to a per-minute rate", thresholded at 1000/500/200 units per
minute. -/
def signal7ClaimRule (mcNow mcPrev : ℚ) : ℚ :=
  if (mcNow - mcPrev) / 30 * 60 ≥ 1000 then 3
  else if (mcNow - mcPrev) / 30 * 60 ≥ 500 then 2
  else if (mcNow - mcPrev) / 30 * 60 ≥ 200 then 1
  else 0

/-- Modelled from the claim wording of C5: signal 4 as a function of the
count of DISTINCT buyers whose tier is top-3 of 5 (so repeated buys by one
reputable wallet count as one buyer). -/
def signal4ClaimDistinct (lookup : ℕ → Option WalletStats) (trades60 : List Trade) : ℚ :=
  if ((trades60.filter (fun t => t.side == Side.buy && isTopTier (getWalletTier lookup t.trader))).map
      (fun t => t.trader)).toFinset.card ≥ 3 then 2
  else if ((trades60.filter (fun t => t.side == Side.buy && isTopTier (getWalletTier lookup t.trader))).map
      (fun t => t.trader)).toFinset.card = 2 then 1.5
  else if ((trades60.filter (fun t => t.side == Side.buy && isTopTier (getWalletTier lookup t.trader))).map
      (fun t => t.trader)).toFinset.card = 1 then 1
  else 0

/-- Modelled from the claim wording of C1: the 1M-MC exit decided at the
first STRICTLY POST-ENTRY window where any condition holds, in the declared
priority order (market-cap threshold, profit target, stop loss, 420s
timeout); `none` when no post-entry window fires. -/
def claimPostEntryExitMc (launch entryTime : ℤ) (entry target stop : ℚ) :
    List Window → ℚ → Option (ℚ × ExitReason)
  | [], _ => none
  | w :: rest, peak =>
    if w.start - launch ≤ entryTime then claimPostEntryExitMc launch entryTime entry target stop rest peak
    else
      if peakUpd peak w.high ≥ 1000000 then some (w.close, ExitReason.hit1m)
      else if w.high ≥ entry * target then some (entry * target, ExitReason.target)
      else if w.low < entry * stop then some (entry * stop, ExitReason.stop)
      else if w.start - launch ≥ 420 then some (w.close, ExitReason.timeout)
      else claimPostEntryExitMc launch entryTime entry target stop rest (peakUpd peak w.high)

/-- C1 counterexample data: entry window at offset 126 (inside the 120-130s
entry interval) whose high already reaches the +30% target; the only later
window triggers only the -20% stop. -/
def c1windows : List Window :=
  [⟨126, 1, 1.4, 0.9, 0⟩, ⟨186, 0.7, 1, 0.5, 0⟩]

/-- C3 failing input (rank-based): the first and only window inside the
60-120s entry interval starts at offset 90 and its own high is +50% above
its close. -/
def rankWindows : List Window :=
  [⟨0, 1, 1, 1, 0⟩, ⟨90, 1, 1.5, 0.9, 0⟩, ⟨150, 1, 1, 1, 0⟩]

/-- C3 failing input (momentum): the entry window at offset 125 has a high
+60% above its close. -/
def momWindows : List Window :=
  [⟨0, 1, 1, 1, 0⟩, ⟨60, 1, 1, 1, 0⟩, ⟨125, 1, 1.6, 1, 0⟩, ⟨200, 1, 1, 1, 0⟩]

/-- C3 momentum qualification trades: five distinct buyers, 1 SOL each, in
the 60-120s window. -/
def momTrades : List Trade :=
  [⟨1, 1, Side.buy, 70⟩, ⟨2, 1, Side.buy, 71⟩, ⟨3, 1, Side.buy, 72⟩,
   ⟨4, 1, Side.buy, 73⟩, ⟨5, 1, Side.buy, 74⟩]

/-- C4 counterexample data: closes 1, 5, 2 at offsets 0, 60, 120 — the
market cap moved DOWN over the 30 seconds before the 120s evaluation
instant, yet the first/third-window computation sees +1 × 10⁹ over
"3 minutes". -/
def c4windows : List Window :=
  [⟨0, 1, 1, 1, 0⟩, ⟨60, 5, 5, 5, 0⟩, ⟨120, 2, 2, 2, 0⟩]

/-- C5 counterexample lookup: every wallet has an elite (tier S) record. -/
def lookupS : ℕ → Option WalletStats :=
  fun _ => some ⟨1000, 10, 90, 0.8, 100⟩

/-- C5 counterexample trades: ONE reputable wallet buying three times in the
first 60 seconds. -/
def tradesC5 : List Trade :=
  [⟨1, 1, Side.buy, 10⟩, ⟨1, 1, Side.buy, 20⟩, ⟨1, 1, Side.buy, 30⟩]

/-- C6 counterexample trades: exactly ten distinct buyers inside
[launch, launch+60s], spread over a 45-second span. -/
def tradesC6 : List Trade :=
  [⟨1, 1, Side.buy, 0⟩, ⟨2, 1, Side.buy, 5⟩, ⟨3, 1, Side.buy, 10⟩,
   ⟨4, 1, Side.buy, 15⟩, ⟨5, 1, Side.buy, 20⟩, ⟨6, 1, Side.buy, 25⟩,
   ⟨7, 1, Side.buy, 30⟩, ⟨8, 1, Side.buy, 35⟩, ⟨9, 1, Side.buy, 40⟩,
   ⟨10, 1, Side.buy, 45⟩]

/-- C7 witness trades (Scenario B): five buyers with volumes 25, 20, 20, 18,
17 — the top three hold 65 of 100 units. -/
def tradesB : List Trade :=
  [⟨1, 25, Side.buy, 0⟩, ⟨2, 20, Side.buy, 1⟩, ⟨3, 20, Side.buy, 2⟩,
   ⟨4, 18, Side.buy, 3⟩, ⟨5, 17, Side.buy, 4⟩]

/-- C9 witness windows: entry at offset 30 (close 1); the window at offset
51 moves nothing and trips the 20-second timeout, a zero-P&L exit whose
reason is NOT the default "time". -/
def scalpW : List Window :=
  [⟨30, 1, 1, 1, 0⟩, ⟨51, 1, 1, 1, 0⟩]

/-- A winning recorded trade (P&L +1 SOL / +186 USD). -/
def tRecA : TradeRec := ⟨1, 186⟩

/-- A losing recorded trade (P&L -1 SOL / -186 USD). -/
def tRecB : TradeRec := ⟨-1, -186⟩

lemma sum_map_filter_split (l : List Trade) (p : Trade → Bool) (f : Trade → ℚ) :
    ((l.filter p).map f).sum + ((l.filter (fun t => !p t)).map f).sum = (l.map f).sum := by
  induction l with
  | nil => simp
  | cons a l ih =>
    cases hp : p a <;> simp [List.filter_cons, hp] <;> linarith [ih]

lemma filter_trader_of_filter_ne (l : List Trade) (w wB : ℕ) (hne : wB ≠ w) :
    (l.filter (fun t => !(t.trader == w))).filter (fun t => t.trader == wB) =
      l.filter (fun t => t.trader == wB) := by
  induction l with
  | nil => rfl
  | cons a l ih =>
    by_cases h : a.trader = wB
    · have h2 : (a.trader == w) = false := beq_eq_false_iff_ne.mpr (h ▸ hne)
      have h1 : (a.trader == wB) = true := beq_iff_eq.mpr h
      simp [List.filter_cons, h1, h2, ih]
    · have h1 : (a.trader == wB) = false := beq_eq_false_iff_ne.mpr h
      by_cases hw : a.trader = w
      · have h2 : (a.trader == w) = true := beq_iff_eq.mpr hw
        simp [List.filter_cons, h1, h2, ih]
      · have h2 : (a.trader == w) = false := beq_eq_false_iff_ne.mpr hw
        simp [List.filter_cons, h1, h2, ih]

lemma partition_sum :
    ∀ (d : List ℕ) (l : List Trade), d.Nodup → (∀ t ∈ l, t.trader ∈ d) →
      (d.map (volumeOf l)).sum = (l.map (fun t => t.amount)).sum := by
  intro d
  induction d with
  | nil =>
    intro l _ hcov
    have hl : l = [] := by
      cases l with
      | nil => rfl
      | cons a l => exact absurd (hcov a (by simp)) (by simp)
    subst hl
    simp
  | cons w d ih =>
    intro l hnd hcov
    obtain ⟨hwd, hnd2⟩ := List.nodup_cons.mp hnd
    have hcongr : d.map (volumeOf l) = d.map (volumeOf (l.filter (fun t => !(t.trader == w)))) := by
      apply List.map_congr_left
      intro wB hwB
      have hne : wB ≠ w := fun h => hwd (h ▸ hwB)
      unfold volumeOf
      rw [filter_trader_of_filter_ne l w wB hne]
    have hcov2 : ∀ t ∈ l.filter (fun t => !(t.trader == w)), t.trader ∈ d := by
      intro t ht
      obtain ⟨htl, htw⟩ := List.mem_filter.mp ht
      have hnw : t.trader ≠ w := by
        intro h
        rw [Bool.not_eq_true', beq_eq_false_iff_ne] at htw
        exact htw h
      rcases List.mem_cons.mp (hcov t htl) with h | h
      · exact absurd h hnw
      · exact h
    have hrec := ih (l.filter (fun t => !(t.trader == w))) hnd2 hcov2
    have hsplit := sum_map_filter_split l (fun t => t.trader == w) (fun t => t.amount)
    have hw0 : volumeOf l w = ((l.filter (fun t => t.trader == w)).map (fun t => t.amount)).sum := rfl
    calc ((w :: d).map (volumeOf l)).sum
        = volumeOf l w + (d.map (volumeOf l)).sum := by simp
      _ = volumeOf l w + (d.map (volumeOf (l.filter (fun t => !(t.trader == w))))).sum := by
          rw [hcongr]
      _ = volumeOf l w + ((l.filter (fun t => !(t.trader == w))).map (fun t => t.amount)).sum := by
          rw [hrec]
      _ = (l.map (fun t => t.amount)).sum := by rw [hw0]; linarith

lemma traderVols_sum (buys : List Trade) :
    (traderVols buys).sum = (buys.map (fun t => t.amount)).sum := by
  apply partition_sum
  · exact List.nodup_dedup _
  · intro t ht
    exact List.mem_dedup.mpr (List.mem_map_of_mem _ ht)

lemma top3Sum_of_short (vols : List ℚ) (h : vols.length ≤ 3) : top3Sum vols = vols.sum := by
  unfold top3Sum
  have hperm := List.perm_insertionSort (fun a b : ℚ => b ≤ a) vols
  rw [List.take_of_length_le (by rw [hperm.length_eq]; exact h)]
  exact hperm.sum_eq

lemma signal1_bounds (cs : Option (ℚ × ℤ)) : 0 ≤ signal1 cs ∧ signal1 cs ≤ 2 := by
  unfold signal1
  constructor <;> ((repeat' split) <;> norm_num)

lemma signal2_bounds (ts : List Trade) : 0 ≤ signal2 ts ∧ signal2 ts ≤ 2 := by
  unfold signal2
  constructor <;> (split_ifs <;> norm_num)

lemma signal4_bounds (lookup : ℕ → Option WalletStats) (ts : List Trade) :
    0 ≤ signal4 lookup ts ∧ signal4 lookup ts ≤ 2 := by
  unfold signal4
  constructor <;> (split_ifs <;> norm_num)

lemma signal5_bounds (ts : List Trade) : 0 ≤ signal5 ts ∧ signal5 ts ≤ 1 := by
  unfold signal5
  constructor <;> (split_ifs <;> norm_num)

lemma signal6_bounds (t1 t2 : List Trade) : 0 ≤ signal6 t1 t2 ∧ signal6 t1 t2 ≤ 1.5 := by
  unfold signal6
  constructor <;> (split_ifs <;> norm_num)

lemma signal7All_bounds (ws : List Window) : 0 ≤ signal7All ws ∧ signal7All ws ≤ 3 := by
  unfold signal7All
  constructor <;> ((repeat' split) <;> norm_num)

lemma scorerSignal2_bounds (trades : List Trade) (launch evalT : ℤ) :
    0 ≤ scorerSignal2 trades launch evalT ∧ scorerSignal2 trades launch evalT ≤ 2 := by
  unfold scorerSignal2
  constructor <;> (split_ifs <;> norm_num)

lemma scorerSignal3_bounds (liq : Option ℚ) (ws : List Window) (launch evalT : ℤ) :
    0 ≤ scorerSignal3 liq ws launch evalT ∧ scorerSignal3 liq ws launch evalT ≤ 1.5 := by
  unfold scorerSignal3
  constructor <;> ((repeat' split) <;> norm_num)

lemma scorerSignal4_bounds (profitable : Finset ℕ) (trades : List Trade) (launch evalT : ℤ) :
    0 ≤ scorerSignal4 profitable trades launch evalT ∧
      scorerSignal4 profitable trades launch evalT ≤ 2 := by
  unfold scorerSignal4
  constructor <;> (split_ifs <;> norm_num)

lemma scorerSignal5_bounds (trades : List Trade) (launch evalT : ℤ) :
    0 ≤ scorerSignal5 trades launch evalT ∧ scorerSignal5 trades launch evalT ≤ 1 := by
  unfold scorerSignal5
  constructor <;> (split_ifs <;> norm_num)

lemma scorerSignal6_bounds (trades : List Trade) (launch evalT : ℤ) :
    0 ≤ scorerSignal6 trades launch evalT ∧ scorerSignal6 trades launch evalT ≤ 1.5 := by
  unfold scorerSignal6
  constructor <;> (split_ifs <;> norm_num)

lemma scorerSignal7_bounds (ws : List Window) (launch evalT : ℤ) :
    0 ≤ scorerSignal7 ws launch evalT ∧ scorerSignal7 ws launch evalT ≤ 3 := by
  unfold scorerSignal7
  constructor <;> ((repeat' split) <;> norm_num)

/-- C2: every one of the seven signal contributions of both scoring
implementations (`calculate_7_signal_score` and `score_token_at_time`) lies
within its declared [0, max] bound (2.0, 2.0, 1.5, 2.0, 1.0, 1.5, 3.0), the
stored total is exactly the sum of the seven contributions, and the total
never exceeds 13.0, the sum of the declared maxima. -/
theorem C2_signal_bounds (lookup : ℕ → Option WalletStats) (cs : Option (ℚ × ℤ))
    (trades : List Trade) (windows : List Window) (launch : ℤ)
    (profitable : Finset ℕ) (liq : Option ℚ) (evalT : ℤ) :
    (0 ≤ (calculate7SignalScore lookup cs trades windows launch).s1 ∧
      (calculate7SignalScore lookup cs trades windows launch).s1 ≤ 2) ∧
    (0 ≤ (calculate7SignalScore lookup cs trades windows launch).s2 ∧
      (calculate7SignalScore lookup cs trades windows launch).s2 ≤ 2) ∧
    (0 ≤ (calculate7SignalScore lookup cs trades windows launch).s3 ∧
      (calculate7SignalScore lookup cs trades windows launch).s3 ≤ 1.5) ∧
    (0 ≤ (calculate7SignalScore lookup cs trades windows launch).s4 ∧
      (calculate7SignalScore lookup cs trades windows launch).s4 ≤ 2) ∧
    (0 ≤ (calculate7SignalScore lookup cs trades windows launch).s5 ∧
      (calculate7SignalScore lookup cs trades windows launch).s5 ≤ 1) ∧
    (0 ≤ (calculate7SignalScore lookup cs trades windows launch).s6 ∧
      (calculate7SignalScore lookup cs trades windows launch).s6 ≤ 1.5) ∧
    (0 ≤ (calculate7SignalScore lookup cs trades windows launch).s7 ∧
      (calculate7SignalScore lookup cs trades windows launch).s7 ≤ 3) ∧
    (calculate7SignalScore lookup cs trades windows launch).total =
      (calculate7SignalScore lookup cs trades windows launch).s1 +
      (calculate7SignalScore lookup cs trades windows launch).s2 +
      (calculate7SignalScore lookup cs trades windows launch).s3 +
      (calculate7SignalScore lookup cs trades windows launch).s4 +
      (calculate7SignalScore lookup cs trades windows launch).s5 +
      (calculate7SignalScore lookup cs trades windows launch).s6 +
      (calculate7SignalScore lookup cs trades windows launch).s7 ∧
    (calculate7SignalScore lookup cs trades windows launch).total ≤ 13 ∧
    (0 ≤ (scoreTokenAtTime cs profitable liq trades windows launch evalT).s1 ∧
      (scoreTokenAtTime cs profitable liq trades windows launch evalT).s1 ≤ 2) ∧
    (0 ≤ (scoreTokenAtTime cs profitable liq trades windows launch evalT).s2 ∧
      (scoreTokenAtTime cs profitable liq trades windows launch evalT).s2 ≤ 2) ∧
    (0 ≤ (scoreTokenAtTime cs profitable liq trades windows launch evalT).s3 ∧
      (scoreTokenAtTime cs profitable liq trades windows launch evalT).s3 ≤ 1.5) ∧
    (0 ≤ (scoreTokenAtTime cs profitable liq trades windows launch evalT).s4 ∧
      (scoreTokenAtTime cs profitable liq trades windows launch evalT).s4 ≤ 2) ∧
    (0 ≤ (scoreTokenAtTime cs profitable liq trades windows launch evalT).s5 ∧
      (scoreTokenAtTime cs profitable liq trades windows launch evalT).s5 ≤ 1) ∧
    (0 ≤ (scoreTokenAtTime cs profitable liq trades windows launch evalT).s6 ∧
      (scoreTokenAtTime cs profitable liq trades windows launch evalT).s6 ≤ 1.5) ∧
    (0 ≤ (scoreTokenAtTime cs profitable liq trades windows launch evalT).s7 ∧
      (scoreTokenAtTime cs profitable liq trades windows launch evalT).s7 ≤ 3) ∧
    (scoreTokenAtTime cs profitable liq trades windows launch evalT).total =
      (scoreTokenAtTime cs profitable liq trades windows launch evalT).s1 +
      (scoreTokenAtTime cs profitable liq trades windows launch evalT).s2 +
      (scoreTokenAtTime cs profitable liq trades windows launch evalT).s3 +
      (scoreTokenAtTime cs profitable liq trades windows launch evalT).s4 +
      (scoreTokenAtTime cs profitable liq trades windows launch evalT).s5 +
      (scoreTokenAtTime cs profitable liq trades windows launch evalT).s6 +
      (scoreTokenAtTime cs profitable liq trades windows launch evalT).s7 ∧
    (scoreTokenAtTime cs profitable liq trades windows launch evalT).total ≤ 13 := by
  have h1 := signal1_bounds cs
  have h2 := signal2_bounds (tradesInRange trades launch 0 60)
  have h4 := signal4_bounds lookup (tradesInRange trades launch 0 60)
  have h5 := signal5_bounds (tradesInRange trades launch 0 120)
  have h6 := signal6_bounds (tradesInRange trades launch 90 120) (tradesInRange trades launch 60 90)
  have h7 := signal7All_bounds (windowsInRange windows launch 300)
  have g2 := scorerSignal2_bounds trades launch evalT
  have g3 := scorerSignal3_bounds liq windows launch evalT
  have g4 := scorerSignal4_bounds profitable trades launch evalT
  have g5 := scorerSignal5_bounds trades launch evalT
  have g6 := scorerSignal6_bounds trades launch evalT
  have g7 := scorerSignal7_bounds windows launch evalT
  simp only [calculate7SignalScore, scoreTokenAtTime]
  refine ⟨h1, h2, by norm_num, h4, h5, h6, h7, by trivial, by linarith [h1.1, h1.2, h2.1, h2.2,
    h4.1, h4.2, h5.1, h5.2, h6.1, h6.2, h7.1, h7.2], h1, g2, g3, g4, g5, g6, g7, by trivial,
    by linarith [h1.1, h1.2, g2.1, g2.2, g3.1, g3.2, g4.1, g4.2, g5.1, g5.2, g6.1, g6.2,
      g7.1, g7.2]⟩

lemma signal5_lt3 (ts : List Trade)
    (h3 : (distinctBuyers (ts.filter (fun t => t.side == Side.buy))).length < 3) :
    signal5 ts = 0 := by
  have hlen : (traderVols (ts.filter (fun t => t.side == Side.buy))).length ≤ 3 := by
    unfold traderVols
    rw [List.length_map]
    omega
  have hkey : top3Sum (traderVols (ts.filter (fun t => t.side == Side.buy))) =
      ((ts.filter (fun t => t.side == Side.buy)).map (fun t => t.amount)).sum := by
    rw [top3Sum_of_short _ hlen, traderVols_sum]
  unfold signal5
  split_ifs with h1 h2 hc1 hc2
  · rfl
  · exfalso
    rw [hkey, div_self (ne_of_gt h2), one_mul] at hc1
    norm_num at hc1
  · exfalso
    rw [hkey, div_self (ne_of_gt h2), one_mul] at hc2
    norm_num at hc2
  · rfl
  · rfl

lemma signal5_ge3 (ts : List Trade)
    (h3 : 3 ≤ (distinctBuyers (ts.filter (fun t => t.side == Side.buy))).length)
    (htot : 0 < ((ts.filter (fun t => t.side == Side.buy)).map (fun t => t.amount)).sum) :
    signal5 ts =
      (if top3Sum (traderVols (ts.filter (fun t => t.side == Side.buy))) /
          ((ts.filter (fun t => t.side == Side.buy)).map (fun t => t.amount)).sum * 100 < 70
       then 1
       else if top3Sum (traderVols (ts.filter (fun t => t.side == Side.buy))) /
          ((ts.filter (fun t => t.side == Side.buy)).map (fun t => t.amount)).sum * 100 < 80
       then 0.5
       else 0) := by
  have hne : ¬ (ts.filter (fun t => t.side == Side.buy)).isEmpty = true := by
    rw [List.isEmpty_iff]
    intro h
    rw [h] at h3
    simp [distinctBuyers] at h3
  unfold signal5
  rw [if_neg hne, if_pos htot]

lemma scorerSignal5_lt3 (trades : List Trade) (launch evalT : ℤ)
    (h3 : (distinctBuyers ((tradesInRange trades launch 0 evalT).filter
        (fun t => t.side == Side.buy))).length < 3) :
    scorerSignal5 trades launch evalT = 0 := by
  have hlen : (traderVols ((tradesInRange trades launch 0 evalT).filter
      (fun t => t.side == Side.buy))).length ≤ 2 := by
    unfold traderVols
    rw [List.length_map]
    omega
  unfold scorerSignal5
  rw [if_pos hlen]

lemma scorerSignal5_ge3 (trades : List Trade) (launch evalT : ℤ)
    (h3 : 3 ≤ (distinctBuyers ((tradesInRange trades launch 0 evalT).filter
        (fun t => t.side == Side.buy))).length)
    (htot : 0 < (traderVols ((tradesInRange trades launch 0 evalT).filter
        (fun t => t.side == Side.buy))).sum) :
    scorerSignal5 trades launch evalT =
      (if top3Sum (traderVols ((tradesInRange trades launch 0 evalT).filter
            (fun t => t.side == Side.buy))) /
          (traderVols ((tradesInRange trades launch 0 evalT).filter
            (fun t => t.side == Side.buy))).sum * 100 < 70
       then 1
       else if top3Sum (traderVols ((tradesInRange trades launch 0 evalT).filter
            (fun t => t.side == Side.buy))) /
          (traderVols ((tradesInRange trades launch 0 evalT).filter
            (fun t => t.side == Side.buy))).sum * 100 < 80
       then 0.5
       else 0) := by
  have hlen : ¬ (traderVols ((tradesInRange trades launch 0 evalT).filter
      (fun t => t.side == Side.buy))).length ≤ 2 := by
    unfold traderVols
    rw [List.length_map]
    omega
  unfold scorerSignal5
  rw [if_neg hlen, if_neg (ne_of_gt htot)]

/-- C7: in both implementations of the buy-concentration signal, fewer than
3 distinct buyers in the concentration window yields contribution 0 (in
`calculate_7_signal_score` this holds because the "top 3" then cover 100% of
the volume; in the scorer it is an explicit guard), and with at least 3
distinct buyers and positive total buy volume the contribution is 1.0 when
the top-3 buyers' share is below 70%, 0.5 when below 80%, else 0. -/
theorem C7_concentration (trades120 trades : List Trade) (launch evalT : ℤ) :
    ((distinctBuyers (trades120.filter (fun t => t.side == Side.buy))).length < 3 →
      signal5 trades120 = 0) ∧
    (3 ≤ (distinctBuyers (trades120.filter (fun t => t.side == Side.buy))).length →
      0 < ((trades120.filter (fun t => t.side == Side.buy)).map (fun t => t.amount)).sum →
      signal5 trades120 =
        (if top3Sum (traderVols (trades120.filter (fun t => t.side == Side.buy))) /
            ((trades120.filter (fun t => t.side == Side.buy)).map (fun t => t.amount)).sum * 100 < 70
         then 1
         else if top3Sum (traderVols (trades120.filter (fun t => t.side == Side.buy))) /
            ((trades120.filter (fun t => t.side == Side.buy)).map (fun t => t.amount)).sum * 100 < 80
         then 0.5
         else 0)) ∧
    ((distinctBuyers ((tradesInRange trades launch 0 evalT).filter
        (fun t => t.side == Side.buy))).length < 3 →
      scorerSignal5 trades launch evalT = 0) ∧
    (3 ≤ (distinctBuyers ((tradesInRange trades launch 0 evalT).filter
        (fun t => t.side == Side.buy))).length →
      0 < (traderVols ((tradesInRange trades launch 0 evalT).filter
        (fun t => t.side == Side.buy))).sum →
      scorerSignal5 trades launch evalT =
        (if top3Sum (traderVols ((tradesInRange trades launch 0 evalT).filter
              (fun t => t.side == Side.buy))) /
            (traderVols ((tradesInRange trades launch 0 evalT).filter
              (fun t => t.side == Side.buy))).sum * 100 < 70
         then 1
         else if top3Sum (traderVols ((tradesInRange trades launch 0 evalT).filter
              (fun t => t.side == Side.buy))) /
            (traderVols ((tradesInRange trades launch 0 evalT).filter
              (fun t => t.side == Side.buy))).sum * 100 < 80
         then 0.5
         else 0)) :=
  ⟨signal5_lt3 trades120, signal5_ge3 trades120,
   scorerSignal5_lt3 trades launch evalT, scorerSignal5_ge3 trades launch evalT⟩

/-- C7 witness (Scenario B of the spec): five buyers with volumes 25, 20,
20, 18, 17 — the top three hold 65 of 100 units, 65% < 70%, so both
implementations contribute 1.0; and two buyers alone always yield 0. -/
theorem C7_concentration_witness :
    signal5 tradesB = 1 ∧ scorerSignal5 tradesB 0 120 = 1 ∧
    signal5 [⟨1, 60, Side.buy, 0⟩, ⟨2, 40, Side.buy, 1⟩] = 0 := by
  refine ⟨?_, ?_, ?_⟩
  · rw [(C7_concentration tradesB tradesB 0 120).2.1
      (by norm_num +decide [tradesB, distinctBuyers])
      (by norm_num +decide [tradesB])]
    norm_num +decide [tradesB, top3Sum, traderVols, distinctBuyers, volumeOf,
      List.insertionSort, List.orderedInsert]
  · rw [(C7_concentration tradesB tradesB 0 120).2.2.2
      (by norm_num +decide [tradesB, tradesInRange, distinctBuyers])
      (by norm_num +decide [tradesB, tradesInRange, traderVols, distinctBuyers, volumeOf])]
    norm_num +decide [tradesB, tradesInRange, top3Sum, traderVols, distinctBuyers, volumeOf,
      List.insertionSort, List.orderedInsert]
  · exact (C7_concentration [⟨1, 60, Side.buy, 0⟩, ⟨2, 40, Side.buy, 1⟩] [] 0 0).1
      (by norm_num +decide [distinctBuyers])

lemma scalpExitLoop_time_price (launch entryTime : ℤ) (entry : ℚ) (ws : List Window)
    (h : (scalpExitLoop launch entryTime entry ws).reason = ExitReason.time) :
    (scalpExitLoop launch entryTime entry ws).price = entry := by
  induction ws with
  | nil => rfl
  | cons w rest ih =>
    unfold scalpExitLoop at h ⊢
    split_ifs at h ⊢
    · exact ih h
    · exact ih h

/-- C9: in the quick-scalp strategy, whenever the exit scan falls through
with the default "time" reason (and hence zero P&L, which is below the
one-cent threshold), `test_dollar_scalping` returns no position; for every
other exit reason a position is returned, even when its P&L is zero. -/
theorem C9_zero_pnl_discard (launch : ℤ) (prices : List Window) (ep : ℚ) (et : ℤ)
    (hlen : 2 ≤ prices.length)
    (he : findEntry prices launch 30 60 = some (ep, et))
    (hp : 0 < ep) :
    ((scalpExitLoop launch et ep prices).reason = ExitReason.time →
      testDollarScalping launch prices = none) ∧
    ((scalpExitLoop launch et ep prices).reason ≠ ExitReason.time →
      ∃ pos : Position, testDollarScalping launch prices = some pos ∧
        pos.exitReason = (scalpExitLoop launch et ep prices).reason ∧
        pos.pnlUsd =
          1 / solPriceUsd * (((scalpExitLoop launch et ep prices).price - ep) / ep) * solPriceUsd) := by
  have h2 : ¬ prices.length < 2 := by omega
  have hp' : ¬ ep ≤ 0 := not_le.mpr hp
  constructor
  · intro ht
    have hpr := scalpExitLoop_time_price launch et ep prices ht
    have hcond : |1 / solPriceUsd * (((scalpExitLoop launch et ep prices).price - ep) / ep) * solPriceUsd| < 0.01 := by
      rw [hpr, sub_self, zero_div, mul_zero, zero_mul, abs_zero]
      norm_num
    unfold testDollarScalping
    rw [if_neg h2, he]
    simp only [if_neg hp', if_pos (And.intro hcond ht)]
  · intro hne
    unfold testDollarScalping
    rw [if_neg h2, he]
    simp only [if_neg hp']
    rw [if_neg (fun hcon => hne hcon.2)]
    exact ⟨_, rfl, rfl, rfl⟩

/-- C9 witness: with entry at offset 30 and a flat window at offset 51, the
exit scan ends with the 20-second-timeout reason and zero P&L, yet a
position IS returned; the same theorem's other branch applies to a
flat path with no timeout window, where the default "time" reason plus
zero P&L yields no position. -/
theorem C9_zero_pnl_discard_witness :
    (∃ pos : Position, testDollarScalping 0 scalpW = some pos ∧
      pos.exitReason = ExitReason.timeout ∧ pos.pnlUsd = 0) ∧
    testDollarScalping 0 [⟨30, 1, 1, 1, 0⟩, ⟨40, 1, 1, 1, 0⟩] = none := by
  constructor
  · have hloop : (scalpExitLoop 0 30 1 scalpW).reason = ExitReason.timeout := by
      norm_num [scalpW, scalpExitLoop]
    obtain ⟨pos, hpos, hre, hpnl⟩ :=
      (C9_zero_pnl_discard 0 scalpW 1 30 (by norm_num [scalpW])
        (by norm_num +decide [scalpW, findEntry, List.find?]) (by norm_num)).2
        (by rw [hloop]; exact fun h => by cases h)
    refine ⟨pos, hpos, ?_, ?_⟩
    · rw [hre, hloop]
    · rw [hpnl]
      norm_num [scalpW, scalpExitLoop, solPriceUsd]
  · exact (C9_zero_pnl_discard 0 [⟨30, 1, 1, 1, 0⟩, ⟨40, 1, 1, 1, 0⟩] 1 30 (by norm_num)
      (by norm_num +decide [findEntry, List.find?]) (by norm_num)).1
      (by norm_num [scalpExitLoop])

/-- C5 counterexample: one elite (tier S) wallet buying three times in the
first minute makes `calculate_7_signal_score` report signal 4 = 2.0 (it
counts reputable BUY TRADES), while the claimed distinct-buyer rule would
give 1.0 for the single reputable buyer. -/
theorem C5_counterexample :
    (calculate7SignalScore lookupS none tradesC5 [] 0).s4 = 2 ∧
    signal4ClaimDistinct lookupS (tradesInRange tradesC5 0 0 60) = 1 := by
  constructor
  · show signal4 lookupS (tradesInRange tradesC5 0 0 60) = 2
    norm_num +decide [signal4, provenWinnersBuying, tradesC5, tradesInRange, lookupS,
      getWalletTier, isTopTier]
  · norm_num +decide [signal4ClaimDistinct, tradesC5, tradesInRange, lookupS,
      getWalletTier, isTopTier]

/-- C5 (amended): in `calculate_7_signal_score`, signal 4 is a function of
the count of reputable BUY TRADES (each buy trade whose trader is tier
S/A/B counts separately, so repeated buys by one reputable wallet count
repeatedly): at least 3 such trades give 2.0, exactly 2 give 1.5, exactly 1
gives 1.0, none give 0. -/
theorem C5_amended (lookup : ℕ → Option WalletStats) (ts : List Trade) :
    (3 ≤ provenWinnersBuying lookup ts → signal4 lookup ts = 2) ∧
    (provenWinnersBuying lookup ts = 2 → signal4 lookup ts = 1.5) ∧
    (provenWinnersBuying lookup ts = 1 → signal4 lookup ts = 1) ∧
    (provenWinnersBuying lookup ts = 0 → signal4 lookup ts = 0) := by
  refine ⟨fun h => ?_, fun h => ?_, fun h => ?_, fun h => ?_⟩ <;>
    unfold signal4 <;> split_ifs <;> first | rfl | omega

/-- C5 amended-claim witness: the three buy trades of the single tier-S
wallet are ≥ 3 reputable buy trades, so signal 4 is 2.0. -/
theorem C5_amended_witness : signal4 lookupS tradesC5 = 2 :=
  (C5_amended lookupS tradesC5).1
    (by norm_num +decide [provenWinnersBuying, tradesC5, lookupS, getWalletTier, isTopTier])

lemma buyersCard_pos_not_isEmpty (ts : List Trade) (h : 1 ≤ (buyersOf ts).card) :
    ¬ (ts.filter (fun t => t.side == Side.buy)).isEmpty = true := by
  intro hemp
  rw [List.isEmpty_iff] at hemp
  unfold buyersOf at h
  rw [hemp] at h
  simp at h

/-- C6 counterexample: a token with EXACTLY ten distinct buyers inside
[launch, launch+60s], spread over a 45-second span, gets signal 2 = 1.5
(not 2.0) from the scorer's `calculate_signal_2_buyer_speed`, because 2.0
additionally requires the buys to span at most 30 seconds. -/
theorem C6_counterexample :
    (buyersOf (tradesInRange tradesC6 0 0 60)).card = 10 ∧
    scorerSignal2 tradesC6 0 60 = 1.5 := by
  constructor
  · decide
  · have hcard : (buyersOf (tradesInRange tradesC6 0 0 60)).card = 10 := by decide
    have hspan : timeSpan ((tradesInRange tradesC6 0 0 60).filter
        (fun t => t.side == Side.buy)) = 45 := by decide
    have hemp : ¬ ((tradesInRange tradesC6 0 0 60).filter
        (fun t => t.side == Side.buy)).isEmpty = true := by decide
    unfold scorerSignal2
    rw [if_neg hemp, if_neg (by rw [hcard, hspan]; omega), if_pos (by rw [hcard, hspan]; omega)]

/-- C6 (amended): `calculate_7_signal_score` follows the claimed rule over
distinct buyers in [launch, launch+60s] (≥10 → 2.0, ≥7 → 1.5, ≥5 → 1.0,
else 0); the scorer's signal 2 instead gives 2.0 only for ≥10 distinct
buyers whose buys span ≤ 30s, 1.5 for ≥10 buyers spanning ≤ 60s, 1.0 for
≥7 buyers, else 0 (in particular 5-6 buyers give 0). -/
theorem C6_amended (trades60 trades : List Trade) (launch evalT : ℤ) :
    (10 ≤ (buyersOf trades60).card → signal2 trades60 = 2) ∧
    (7 ≤ (buyersOf trades60).card → (buyersOf trades60).card < 10 → signal2 trades60 = 1.5) ∧
    (5 ≤ (buyersOf trades60).card → (buyersOf trades60).card < 7 → signal2 trades60 = 1) ∧
    ((buyersOf trades60).card < 5 → signal2 trades60 = 0) ∧
    (10 ≤ (buyersOf (tradesInRange trades launch 0 evalT)).card →
      timeSpan ((tradesInRange trades launch 0 evalT).filter (fun t => t.side == Side.buy)) ≤ 30 →
      scorerSignal2 trades launch evalT = 2) ∧
    (10 ≤ (buyersOf (tradesInRange trades launch 0 evalT)).card →
      30 < timeSpan ((tradesInRange trades launch 0 evalT).filter (fun t => t.side == Side.buy)) →
      timeSpan ((tradesInRange trades launch 0 evalT).filter (fun t => t.side == Side.buy)) ≤ 60 →
      scorerSignal2 trades launch evalT = 1.5) ∧
    (7 ≤ (buyersOf (tradesInRange trades launch 0 evalT)).card →
      (buyersOf (tradesInRange trades launch 0 evalT)).card ≤ 9 →
      scorerSignal2 trades launch evalT = 1) ∧
    ((buyersOf (tradesInRange trades launch 0 evalT)).card < 7 →
      scorerSignal2 trades launch evalT = 0) := by
  refine ⟨fun h => ?_, fun h h2 => ?_, fun h h2 => ?_, fun h => ?_,
    fun h hs => ?_, fun h hs1 hs2 => ?_, fun h h2 => ?_, fun h => ?_⟩
  · unfold signal2
    split_ifs <;> first | rfl | omega
  · unfold signal2
    split_ifs <;> first | rfl | omega
  · unfold signal2
    split_ifs <;> first | rfl | omega
  · unfold signal2
    split_ifs <;> first | rfl | omega
  · have hne := buyersCard_pos_not_isEmpty (tradesInRange trades launch 0 evalT) (by omega)
    unfold scorerSignal2
    rw [if_neg hne, if_pos (And.intro h hs)]
  · have hne := buyersCard_pos_not_isEmpty (tradesInRange trades launch 0 evalT) (by omega)
    unfold scorerSignal2
    rw [if_neg hne, if_neg (fun hc => by omega), if_pos (And.intro h hs2)]
  · have hne := buyersCard_pos_not_isEmpty (tradesInRange trades launch 0 evalT) (by omega)
    unfold scorerSignal2
    rw [if_neg hne, if_neg (fun hc => by omega), if_neg (fun hc => by omega), if_pos h]
  · by_cases hemp : ((tradesInRange trades launch 0 evalT).filter
        (fun t => t.side == Side.buy)).isEmpty = true
    · unfold scorerSignal2
      rw [if_pos hemp]
    · unfold scorerSignal2
      rw [if_neg hemp, if_neg (fun hc => by omega), if_neg (fun hc => by omega),
        if_neg (by omega)]

/-- C6 amended-claim witness: ten distinct buyers spanning 45 seconds score
1.5 in the scorer; the same ten distinct buyers score 2.0 in
`calculate_7_signal_score`. -/
theorem C6_amended_witness :
    scorerSignal2 tradesC6 0 60 = 1.5 ∧ signal2 (tradesInRange tradesC6 0 0 60) = 2 := by
  constructor
  · exact (C6_amended [] tradesC6 0 60).2.2.2.2.2.1 (by decide) (by decide) (by decide)
  · exact (C6_amended (tradesInRange tradesC6 0 0 60) [] 0 0).1 (by decide)

/-- C4 counterexample: with closes 1, 5, 2 at offsets 0s, 60s, 120s, the
market cap at the 120s evaluation instant is 2×10⁹ and 30 seconds earlier
it is 5×10⁹ (a falling market), so the claimed 30-second-velocity rule
gives 0 — yet `calculate_7_signal_score` reports signal 7 = 3.0, because it
actually compares the first and third window closes over an assumed
3-minute span. -/
theorem C4_counterexample :
    (calculate7SignalScore (fun _ => none) none [] c4windows 0).s7 = 3 ∧
    closeAtOrBefore c4windows 120 = some 2 ∧
    closeAtOrBefore c4windows 90 = some 5 ∧
    signal7ClaimRule (2 * 1000000000) (5 * 1000000000) = 0 := by
  refine ⟨?_, ?_, ?_, ?_⟩
  · show signal7All (windowsInRange c4windows 0 300) = 3
    norm_num +decide [signal7All, windowsInRange, c4windows]
  · norm_num +decide [closeAtOrBefore, c4windows]
  · norm_num +decide [closeAtOrBefore, c4windows]
  · norm_num [signal7ClaimRule]

/-- C4 (amended): the scorer's `calculate_signal_7_mc_velocity` follows the
claimed rule exactly — whenever the evaluation offset is at least 30s and
nonzero closes exist at the evaluation instant and 30 seconds earlier, its
contribution equals the claimed 30-second-market-cap-change-per-minute rule
(≥1000 → 3.0, ≥500 → 2.0, ≥200 → 1.0, else 0); the multi-strategy backtest's
`calculate_7_signal_score` instead thresholds (third window close − first
window close)×10⁹ / 3 whenever at least three windows exist and the first
close is positive. -/
theorem C4_amended (ws : List Window) (launch evalT : ℤ) (cur base : ℚ)
    (h30 : 30 ≤ evalT)
    (hc : closeAtOrBefore ws (launch + evalT) = some cur) (hc0 : cur ≠ 0)
    (hb : closeAtOrBefore ws (launch + evalT - 30) = some base) (hb0 : base ≠ 0) :
    scorerSignal7 ws launch evalT = signal7ClaimRule (cur * 1000000000) (base * 1000000000) ∧
    ∀ (p0 p1 p2 : Window) (rest : List Window), 0 < p0.close →
      signal7All (p0 :: p1 :: p2 :: rest) =
        (if (p2.close - p0.close) * 1000000000 / 3 ≥ 1000 then 3
         else if (p2.close - p0.close) * 1000000000 / 3 ≥ 500 then 2
         else if (p2.close - p0.close) * 1000000000 / 3 ≥ 200 then 1
         else 0) := by
  constructor
  · unfold scorerSignal7 signal7ClaimRule
    rw [if_neg (by omega)]
    simp only [hc, hb]
    rw [if_neg hc0, if_neg hb0]
  · intro p0 p1 p2 rest hp0
    unfold signal7All
    rw [if_pos (by simp)]
    simp only [if_pos hp0]

/-- C4 amended-claim witness: on the counterexample windows at evaluation
offset 120s the scorer returns exactly the claimed rule's value (0 here,
since the market cap fell over the last 30 seconds), and the backtest's
first/third-close computation evaluates to 3.0. -/
theorem C4_amended_witness :
    scorerSignal7 c4windows 0 120 = signal7ClaimRule (2 * 1000000000) (5 * 1000000000) ∧
    signal7All c4windows =
      (if ((2 : ℚ) - 1) * 1000000000 / 3 ≥ 1000 then 3
       else if ((2 : ℚ) - 1) * 1000000000 / 3 ≥ 500 then 2
       else if ((2 : ℚ) - 1) * 1000000000 / 3 ≥ 200 then 1
       else 0) := by
  have h := C4_amended c4windows 0 120 2 5 (by omega)
    (by norm_num +decide [closeAtOrBefore, c4windows]) (by norm_num)
    (by norm_num +decide [closeAtOrBefore, c4windows]) (by norm_num)
  constructor
  · exact h.1
  · exact h.2 ⟨0, 1, 1, 1, 0⟩ ⟨60, 5, 5, 5, 0⟩ ⟨120, 2, 2, 2, 0⟩ [] (by norm_num)

/-- C1 counterexample: with the entry window at offset 126 (entry price 1,
bracket target ×1.30 / stop ×0.80), the code's exit scan — which skips only
windows with offset ≤ 120 — fires the profit target at the ENTRY window
itself, while the first strictly POST-entry window where any condition
holds (offset 186) would fire the stop loss; so the recorded exit is not
the one determined at the first post-entry firing window. -/
theorem C1_counterexample :
    findEntry c1windows 0 120 130 = some (1, 126) ∧
    mcExitLoop 0 1 1.30 0.80 c1windows 0 =
      ⟨(13 : ℚ) / 10, ExitReason.target, some 126, 7 / 5⟩ ∧
    claimPostEntryExitMc 0 126 1 1.30 0.80 c1windows 0 =
      some ((4 : ℚ) / 5, ExitReason.stop) := by
  refine ⟨?_, ?_, ?_⟩
  · norm_num +decide [findEntry, c1windows, List.find?]
  · norm_num +decide [mcExitLoop, c1windows, peakUpd]
  · norm_num +decide [claimPostEntryExitMc, c1windows, peakUpd]

/-- C1 (amended): at each window the 1M-MC exit scan considers (those with
offset strictly greater than 120, which may include the entry window itself
when entry falls later in the 120-130s interval), the conditions are
evaluated in the fixed priority order: absolute market-cap threshold first
(exiting at the close), then profit target (exiting at entry × target, not
the raw high, even when the stop-loss condition holds at the same window),
then stop loss, then the 420s timeout; windows at or before offset 120 are
skipped and a window firing no condition passes control to the next, so the
first considered window where any condition holds determines the exit.
The dollar-scalping scan analogously fires its profit target at
entry × 1.03 at any strictly post-entry window whose high gains ≥ 3%,
regardless of the stop or timeout conditions. -/
theorem C1_amended (launch et : ℤ) (entry target stop peak : ℚ)
    (w : Window) (rest : List Window) :
    (w.start - launch ≤ 120 →
      mcExitLoop launch entry target stop (w :: rest) peak =
        mcExitLoop launch entry target stop rest peak) ∧
    (120 < w.start - launch → 1000000 ≤ peakUpd peak w.high →
      mcExitLoop launch entry target stop (w :: rest) peak =
        ⟨w.close, ExitReason.hit1m, some (w.start - launch), peakUpd peak w.high⟩) ∧
    (120 < w.start - launch → peakUpd peak w.high < 1000000 →
      entry * target ≤ w.high →
      mcExitLoop launch entry target stop (w :: rest) peak =
        ⟨entry * target, ExitReason.target, some (w.start - launch), peakUpd peak w.high⟩) ∧
    (120 < w.start - launch → peakUpd peak w.high < 1000000 →
      w.high < entry * target → w.low < entry * stop →
      mcExitLoop launch entry target stop (w :: rest) peak =
        ⟨entry * stop, ExitReason.stop, some (w.start - launch), peakUpd peak w.high⟩) ∧
    (120 < w.start - launch → peakUpd peak w.high < 1000000 →
      w.high < entry * target → ¬ w.low < entry * stop → 420 ≤ w.start - launch →
      mcExitLoop launch entry target stop (w :: rest) peak =
        ⟨w.close, ExitReason.timeout, some (w.start - launch), peakUpd peak w.high⟩) ∧
    (120 < w.start - launch → peakUpd peak w.high < 1000000 →
      w.high < entry * target → ¬ w.low < entry * stop → w.start - launch < 420 →
      mcExitLoop launch entry target stop (w :: rest) peak =
        mcExitLoop launch entry target stop rest (peakUpd peak w.high)) ∧
    (et < w.start - launch → 3 ≤ (w.high - entry) / entry * 100 →
      scalpExitLoop launch et entry (w :: rest) =
        ⟨entry * 1.03, ExitReason.target, some (w.start - launch)⟩) := by
  refine ⟨fun h1 => ?_, fun h1 h2 => ?_, fun h1 h2 h3 => ?_, fun h1 h2 h3 h4 => ?_,
    fun h1 h2 h3 h4 h5 => ?_, fun h1 h2 h3 h4 h5 => ?_, fun h1 h2 => ?_⟩
  · unfold mcExitLoop
    rw [if_pos h1, mcExitLoop.eq_def]
  · unfold mcExitLoop
    rw [if_neg (not_le.mpr h1), if_pos h2]
  · unfold mcExitLoop
    rw [if_neg (not_le.mpr h1), if_neg (not_le.mpr h2), if_pos h3]
  · unfold mcExitLoop
    rw [if_neg (not_le.mpr h1), if_neg (not_le.mpr h2), if_neg (not_le.mpr h3), if_pos h4]
  · unfold mcExitLoop
    rw [if_neg (not_le.mpr h1), if_neg (not_le.mpr h2), if_neg (not_le.mpr h3), if_neg h4,
      if_pos h5]
  · unfold mcExitLoop
    rw [if_neg (not_le.mpr h1), if_neg (not_le.mpr h2), if_neg (not_le.mpr h3), if_neg h4,
      if_neg (not_le.mpr h5), mcExitLoop.eq_def]
  · unfold scalpExitLoop
    rw [if_neg (not_le.mpr h1), if_pos h2]

/-- C1 amended-claim witness: at a window whose high is both above the
profit target (1 × 1.30) and whose low is below the stop (1 × 0.80), the
scan exits with the profit-target reason at entry × 1.30 — the priority
order, not the condition order, decides. -/
theorem C1_amended_witness :
    (0.5 : ℚ) < 1 * 0.80 ∧
    mcExitLoop 0 1 1.30 0.80 [⟨130, 1, 2, 0.5, 0⟩] 0 =
      ⟨(1 : ℚ) * 1.30, ExitReason.target, some 130, peakUpd 0 2⟩ := by
  constructor
  · norm_num
  · exact (C1_amended 0 0 1 1.30 0.80 0 ⟨130, 1, 2, 0.5, 0⟩ []).2.2.1
      (by norm_num) (by norm_num [peakUpd]) (by norm_num)

/-- C3: evaluation of the code at the failing input. Rank-based: the only
window inside the 60-120s entry interval starts at offset 90 and its own
high is +50%; because the exit scan skips only offsets ≤ 60 it fires the
profit target AT the entry window, so the exit instant equals the entry
instant (90 = 90). Momentum likewise fires at its entry window (125 = 125),
since its scan skips only offsets ≤ 120 while entry may fall at 120-130s. -/
theorem C3_code_evaluation :
    (∃ pos : Position, testRankBased 0 rankWindows 25 = some pos ∧
      pos.entryTime = 90 ∧ pos.exitTime = some 90 ∧ pos.exitReason = ExitReason.target) ∧
    (∃ pos : Position, testMomentum 0 momWindows momTrades = some pos ∧
      pos.entryTime = 125 ∧ pos.exitTime = some 125 ∧ pos.exitReason = ExitReason.target) := by
  constructor
  · refine ⟨⟨5 / solPriceUsd, 1, 1 * 1.30, ExitReason.target,
      5 / solPriceUsd * ((1 * 1.30 - 1) / 1),
      5 / solPriceUsd * ((1 * 1.30 - 1) / 1) * solPriceUsd, 90, some 90⟩, ?_, rfl, rfl, rfl⟩
    norm_num +decide [testRankBased, rankWindows, findEntry, List.find?, rankExitLoop,
      solPriceUsd]
  · refine ⟨⟨3 / solPriceUsd, 1, 1 * 1.50, ExitReason.target,
      3 / solPriceUsd * ((1 * 1.50 - 1) / 1),
      3 / solPriceUsd * ((1 * 1.50 - 1) / 1) * solPriceUsd, 125, some 125⟩, ?_, rfl, rfl, rfl⟩
    norm_num +decide [testMomentum, momWindows, momTrades, tradesInRange, buyersOf, buyVolume,
      findEntry, List.find?, momentumExitLoop, solPriceUsd]

/-- C8 counterexample: a faulting strategy call leaves the strategy's
`results` entry — the only data `print_comprehensive_results` consumes —
EXACTLY as if the call had never happened: no counter is incremented, so no
fault count can appear in the final report. -/
theorem C8_counterexample :
    runBatch [Except.error ()] = runBatch [] ∧
    runBatch [Except.error ()] = ⟨[], 0, 0, 0⟩ ∧
    runBatch [Except.ok (some tRecA), Except.error ()] =
      runBatch [Except.ok (some tRecA)] :=
  ⟨rfl, rfl, rfl⟩

/-- C8 (amended): an unexpected fault while processing one asset's strategy
call does not abort the batch — the bare `except: pass` catches it at the
(asset, strategy) boundary and the remaining assets are processed exactly
as without the fault — but no fault counter exists and the fault leaves no
trace whatsoever in the results consumed by the final report: the fault is
silently suppressed. -/
theorem C8_amended (xs ys : List (Except Unit (Option TradeRec))) :
    runBatch (xs ++ Except.error () :: ys) = runBatch (xs ++ ys) := by
  unfold runBatch
  rw [List.foldl_append, List.foldl_append, List.foldl_cons]
  rfl

lemma runBatch_foldl (r : StratResults) (os : List (Except Unit (Option TradeRec))) :
    os.foldl recordOutcome r =
      ⟨r.trades ++ os.filterMap okTrade,
       r.totalPnl + ((os.filterMap okTrade).map (fun t => t.pnlUsd)).sum,
       r.wins + (os.filterMap okTrade).countP (fun t => decide (0 < t.pnlSol)),
       r.losses + (os.filterMap okTrade).countP (fun t => !decide (0 < t.pnlSol))⟩ := by
  induction os generalizing r with
  | nil => simp [okTrade]
  | cons o os ih =>
    rw [List.foldl_cons, ih]
    cases o with
    | error e =>
      simp [recordOutcome, okTrade, List.filterMap_cons]
    | ok oo =>
      cases oo with
      | none => simp [recordOutcome, okTrade, List.filterMap_cons]
      | some t =>
        by_cases hp : 0 < t.pnlSol <;>
          simp [recordOutcome, okTrade, List.filterMap_cons, List.countP_cons, hp,
            StratResults.mk.injEq] <;>
          constructor <;> first | ring | omega | simp

lemma runBatch_eq (os : List (Except Unit (Option TradeRec))) :
    runBatch os =
      ⟨os.filterMap okTrade,
       ((os.filterMap okTrade).map (fun t => t.pnlUsd)).sum,
       (os.filterMap okTrade).countP (fun t => decide (0 < t.pnlSol)),
       (os.filterMap okTrade).countP (fun t => !decide (0 < t.pnlSol))⟩ := by
  unfold runBatch
  rw [runBatch_foldl]
  simp

/-- C10: the per-strategy statistics (trade count, win count — a win being
exactly a recorded position with P&L > 0 — loss count, and total P&L)
produced by the aggregation loop are invariant under any reordering of the
recorded outcomes, and the statistics of the concatenation of two batches
are the componentwise sums of the statistics of the sub-batches. -/
theorem C10_aggregation (os osB xs ys : List (Except Unit (Option TradeRec)))
    (hperm : os.Perm osB) :
    statsQuad (runBatch os) = statsQuad (runBatch osB) ∧
    statsQuad (runBatch (xs ++ ys)) =
      addQuad (statsQuad (runBatch xs)) (statsQuad (runBatch ys)) ∧
    (runBatch os).wins = (os.filterMap okTrade).countP (fun t => decide (0 < t.pnlSol)) ∧
    (runBatch os).losses = (os.filterMap okTrade).countP (fun t => !decide (0 < t.pnlSol)) := by
  have hp := hperm.filterMap okTrade
  refine ⟨?_, ?_, ?_, ?_⟩
  · simp only [statsQuad, runBatch_eq, Prod.mk.injEq]
    exact ⟨hp.length_eq, hp.countP_eq _, hp.countP_eq _, ((hp.map _).sum_eq)⟩
  · simp only [statsQuad, runBatch_eq, addQuad, Prod.mk.injEq, List.filterMap_append,
      List.length_append, List.countP_append, List.map_append, List.sum_append]
  · rw [runBatch_eq]
  · rw [runBatch_eq]

/-- C10 witness: a winning and a losing trade recorded in either order give
the same statistics quadruple, and splitting them into two one-element
batches sums to the combined batch's statistics. -/
theorem C10_aggregation_witness :
    statsQuad (runBatch [Except.ok (some tRecA), Except.ok (some tRecB)]) =
      statsQuad (runBatch [Except.ok (some tRecB), Except.ok (some tRecA)]) ∧
    statsQuad (runBatch ([Except.ok (some tRecA)] ++ [Except.ok (some tRecB)])) =
      addQuad (statsQuad (runBatch [Except.ok (some tRecA)]))
        (statsQuad (runBatch [Except.ok (some tRecB)])) := by
  have h := C10_aggregation [Except.ok (some tRecA), Except.ok (some tRecB)]
    [Except.ok (some tRecB), Except.ok (some tRecA)]
    [Except.ok (some tRecA)] [Except.ok (some tRecB)]
    (List.Perm.swap (Except.ok (some tRecB)) (Except.ok (some tRecA)) [])
  exact ⟨h.1, h.2.1⟩

end Pipeline
